import Mathlib

/-!
Shallow embedding of the regression algorithm
FutureTrailingStopOrderOnExtendedHoursRegressionAlgorithm
(src/Algorithm.Python/FutureTrailingStopOrderOnExtendedHoursRegressionAlgorithm.py).

The script is glue code over a host backtesting framework.  We model the
data that flows across that boundary explicitly: each operation of the
strategy object is a pure function from the strategy state (the single
field sp_500_e_mini) to a triple of the new state, the list of host calls
it issues, and an optional raised exception message.  The host supplies
the result of add_future (a Security) and the answer of is_market_open
(a Symbol-indexed Bool) as parameters.
-/

namespace RegressionAlgorithm

/-- Tradable identifier carried by order events and order submissions. -/
structure Symbol where
  value : String
deriving DecidableEq, Repr

/-- Host-framework security handle returned by add_future; mapped is the
currently mapped contract for a continuous future. -/
structure Security where
  mapped : Symbol
deriving DecidableEq, Repr

/-- Data resolutions of the host framework. -/
inductive Resolution
  | TICK
  | SECOND
  | MINUTE
  | HOUR
  | DAILY
deriving DecidableEq, Repr

/-- Order status values of the host framework order state machine. -/
inductive OrderStatus
  | NEW
  | SUBMITTED
  | PARTIALLY_FILLED
  | FILLED
  | CANCELED
  | NONE
  | INVALID
  | CANCEL_PENDING
  | UPDATE_SUBMITTED
deriving DecidableEq, Repr

/-- Order event delivered by the host to on_order_event.  Besides the two
fields the handler reads (symbol and status) we carry further payload
fields so that independence from them is expressible. -/
structure OrderEvent where
  symbol : Symbol
  status : OrderStatus
  order_id : Nat
  fill_price : Int
  fill_quantity : Int
  utc_time : Nat
deriving DecidableEq, Repr

/-- Date rules usable with schedule.on; the script uses every_day. -/
inductive DateRule
  | every_day
deriving DecidableEq, Repr

/-- Wall-clock trigger time of a scheduled event (time_rules.at). -/
structure TimeOfDay where
  hour : Nat
  minute : Nat
deriving DecidableEq, Repr

/-- Callbacks of the strategy that can be registered with the scheduler. -/
inductive Callback
  | make_market_and_stop_market_order
deriving DecidableEq, Repr

/-- Calls the script issues into the host framework API. -/
inductive HostCall
  | set_start_date (year month day : Nat)
  | set_end_date (year month day : Nat)
  | add_future (ticker : String) (resolution : Resolution)
      (extended_market_hours : Bool)
  | schedule_on (dateRule : DateRule) (time : TimeOfDay) (callback : Callback)
  | market_order (symbol : Symbol) (quantity : Int)
  | trailing_stop_order (symbol : Symbol) (quantity : Int)
      (trailingAmount : Int) (trailingAsPercentage : Bool)
deriving DecidableEq, Repr

/-- State owned by the strategy object: the class attribute sp_500_e_mini,
initialised to None at class level. -/
structure AlgorithmState where
  sp_500_e_mini : Option Security
deriving DecidableEq, Repr

/-- State of the strategy object before initialize runs: the class-level
assignment sp_500_e_mini = None. -/
def initialState : AlgorithmState := { sp_500_e_mini := none }

namespace Futures

namespace Indices

/-- Ticker constant Futures.Indices.SP_500_E_MINI of the host framework. -/
def SP_500_E_MINI : String := "ES"

end Indices

end Futures

/-- Embedding of initialize: sets the start date to 2013-10-06 and the end
date to 2013-10-12, adds the SP 500 E-mini future at minute resolution with
extended market hours on (storing the returned security in sp_500_e_mini),
and registers make_market_and_stop_market_order every day at 19:00.  The
host-chosen result of add_future is the parameter add_future_result.  The
third component is the raised exception, always none here. -/
def initialize_algorithm (add_future_result : Security) (st : AlgorithmState) :
    AlgorithmState × List HostCall × Option String :=
  ({ st with sp_500_e_mini := some add_future_result },
   [HostCall.set_start_date 2013 10 6,
    HostCall.set_end_date 2013 10 12,
    HostCall.add_future Futures.Indices.SP_500_E_MINI Resolution.MINUTE true,
    HostCall.schedule_on DateRule.every_day { hour := 19, minute := 0 }
      Callback.make_market_and_stop_market_order],
   none)

/-- Embedding of make_market_and_stop_market_order: submits a market order
of quantity 1 and a trailing stop order of quantity -1 with trailing amount
5, not as a percentage, both on sp_500_e_mini.mapped.  When sp_500_e_mini
is still None, reading .mapped raises an AttributeError before any order
is submitted. -/
def make_market_and_stop_market_order (st : AlgorithmState) :
    AlgorithmState × List HostCall × Option String :=
  match st.sp_500_e_mini with
  | none =>
      (st, [],
       some "AttributeError: NoneType object has no attribute mapped")
  | some sec =>
      (st,
       [HostCall.market_order sec.mapped 1,
        HostCall.trailing_stop_order sec.mapped (-1) 5 false],
       none)

/-- Embedding of on_order_event: when the market for the event symbol is
open and the order status is FILLED, raise Exception with the message
below; otherwise do nothing.  The host answer to is_market_open at event
time is the function parameter. -/
def on_order_event (is_market_open : Symbol → Bool)
    (st : AlgorithmState) (order_event : OrderEvent) :
    AlgorithmState × Option String :=
  if is_market_open order_event.symbol = true ∧
      order_event.status = OrderStatus.FILLED then
    (st, some "Order filled during regular hours.")
  else
    (st, none)

/-- Callback invocations the host can deliver to the strategy after
initialize: the scheduled action, or an order event notification together
with the host answer to is_market_open at that moment. -/
inductive CallbackEvent
  | scheduled
  | order_update (is_market_open : Symbol → Bool) (e : OrderEvent)

/-- One callback invocation: dispatches to the corresponding handler and
reports the new state, issued host calls, and raised exception. -/
def step (st : AlgorithmState) (ev : CallbackEvent) :
    AlgorithmState × List HostCall × Option String :=
  match ev with
  | CallbackEvent.scheduled => make_market_and_stop_market_order st
  | CallbackEvent.order_update f e =>
      ((on_order_event f st e).1, [], (on_order_event f st e).2)

/-- State reached after a sequence of callback invocations. -/
def run (st : AlgorithmState) (evs : List CallbackEvent) : AlgorithmState :=
  evs.foldl (fun s ev => (step s ev).1) st

/-- Helper: does a host call add a future subscription. -/
def isAddFuture : HostCall → Bool
  | HostCall.add_future _ _ _ => true
  | _ => false

/-- Helper: does a host call register a scheduled event. -/
def isScheduleOn : HostCall → Bool
  | HostCall.schedule_on _ _ _ => true
  | _ => false

/-- Helper: the trailing amount and percentage flag of a trailing stop
order submission, none for any other host call. -/
def trailingParams : HostCall → Option (Int × Bool)
  | HostCall.trailing_stop_order _ _ amount asPct => some (amount, asPct)
  | _ => none

/-- Helper: a sample symbol for witnesses. -/
def sampleSymbol : Symbol := { value := "ES XCME 2013-12" }

/-- Helper: a sample security for witnesses. -/
def sampleSecurity : Security := { mapped := sampleSymbol }

/-- Helper: a sample filled order event for witnesses. -/
def sampleFilledEvent : OrderEvent :=
  { symbol := sampleSymbol, status := OrderStatus.FILLED, order_id := 1,
    fill_price := 1650, fill_quantity := 1, utc_time := 100 }

/-- Helper: a second filled order event, differing from sampleFilledEvent
in every field other than the status. -/
def otherFilledEvent : OrderEvent :=
  { symbol := { value := "ES XCME 2014-03" }, status := OrderStatus.FILLED,
    order_id := 7, fill_price := 1700, fill_quantity := -1, utc_time := 999 }

/-- Helper: a submitted (not filled) order event for witnesses. -/
def sampleSubmittedEvent : OrderEvent :=
  { symbol := sampleSymbol, status := OrderStatus.SUBMITTED, order_id := 1,
    fill_price := 0, fill_quantity := 0, utc_time := 50 }

/-- Helper shared by several claims: no callback invocation changes the
strategy state. -/
theorem step_fst (st : AlgorithmState) (ev : CallbackEvent) :
    (step st ev).1 = st := by
  cases ev with
  | scheduled =>
      cases h : st.sp_500_e_mini <;>
        simp [step, make_market_and_stop_market_order, h]
  | order_update f e =>
      simp only [step, on_order_event]
      split <;> rfl

/-- Helper: running any sequence of callbacks leaves the state unchanged. -/
theorem run_eq (st : AlgorithmState) (evs : List CallbackEvent) :
    run st evs = st := by
  induction evs generalizing st with
  | nil => rfl
  | cons ev rest ih =>
      show run (step st ev).1 rest = st
      rw [step_fst, ih]

/-- Claim C1: for every order event, if the market for its symbol is open
at event time and the status is FILLED, on_order_event raises the
exception that aborts the run. -/
theorem C1_fill_during_open_market_raises (is_market_open : Symbol → Bool)
    (st : AlgorithmState) (e : OrderEvent)
    (hopen : is_market_open e.symbol = true)
    (hfill : e.status = OrderStatus.FILLED) :
    (on_order_event is_market_open st e).2 =
      some "Order filled during regular hours." := by
  simp [on_order_event, hopen, hfill]

/-- Witness for C1 at a concrete open-market filled event. -/
theorem C1_witness :
    (on_order_event (fun _ => true) initialState sampleFilledEvent).2 =
      some "Order filled during regular hours." :=
  C1_fill_during_open_market_raises (fun _ => true) initialState
    sampleFilledEvent rfl rfl

/-- Claim C2: for every order event delivered while the market for its
symbol is closed, on_order_event raises nothing, whatever the status. -/
theorem C2_closed_market_never_raises (is_market_open : Symbol → Bool)
    (st : AlgorithmState) (e : OrderEvent)
    (hclosed : is_market_open e.symbol = false) :
    (on_order_event is_market_open st e).2 = none := by
  simp [on_order_event, hclosed]

/-- Witness for C2 at a concrete closed-market filled event. -/
theorem C2_witness :
    (on_order_event (fun _ => false) initialState sampleFilledEvent).2 =
      none :=
  C2_closed_market_never_raises (fun _ => false) initialState
    sampleFilledEvent rfl

/-- Claim C3: whenever the instrument reference is set, the scheduled
action submits exactly the two orders, in order: a market buy of quantity
1 on the mapped contract, then a trailing stop sell of quantity -1 on the
same contract, and nothing else. -/
theorem C3_scheduled_action_two_orders (st : AlgorithmState)
    (sec : Security) (h : st.sp_500_e_mini = some sec) :
    (make_market_and_stop_market_order st).2.1 =
      [HostCall.market_order sec.mapped 1,
       HostCall.trailing_stop_order sec.mapped (-1) 5 false] := by
  simp [make_market_and_stop_market_order, h]

/-- Witness for C3 at a concrete post-initialize state. -/
theorem C3_witness :
    (make_market_and_stop_market_order
        { sp_500_e_mini := some sampleSecurity }).2.1 =
      [HostCall.market_order sampleSecurity.mapped 1,
       HostCall.trailing_stop_order sampleSecurity.mapped (-1) 5 false] :=
  C3_scheduled_action_two_orders { sp_500_e_mini := some sampleSecurity }
    sampleSecurity rfl

/-- Claim C4: initialize issues exactly the configuration calls of the
script: start date 2013-10-06, end date 2013-10-12, one future
subscription (SP 500 E-mini, minute resolution, extended market hours on),
and one scheduled callback firing every day at 19:00; in particular
exactly one add_future call and exactly one schedule_on call occur. -/
theorem C4_initialize_configuration (sec : Security) (st : AlgorithmState) :
    (initialize_algorithm sec st).2.1 =
      [HostCall.set_start_date 2013 10 6,
       HostCall.set_end_date 2013 10 12,
       HostCall.add_future Futures.Indices.SP_500_E_MINI Resolution.MINUTE
         true,
       HostCall.schedule_on DateRule.every_day { hour := 19, minute := 0 }
         Callback.make_market_and_stop_market_order] ∧
    ((initialize_algorithm sec st).2.1.filter isAddFuture).length = 1 ∧
    ((initialize_algorithm sec st).2.1.filter isScheduleOn).length = 1 :=
  ⟨rfl, rfl, rfl⟩

/-- Claim C5: the strategy state consists of exactly the one instrument
reference (two states agreeing on sp_500_e_mini are equal), and no
callback invocation mutates the strategy state. -/
theorem C5_single_reference_no_mutation :
    (∀ s1 s2 : AlgorithmState,
        s1.sp_500_e_mini = s2.sp_500_e_mini → s1 = s2) ∧
    (∀ (st : AlgorithmState) (ev : CallbackEvent), (step st ev).1 = st) := by
  constructor
  · intro s1 s2 h
    cases s1
    cases s2
    simpa using h
  · exact step_fst

/-- Witness for C5 at concrete states and a concrete callback. -/
theorem C5_witness :
    ({ sp_500_e_mini := some sampleSecurity } : AlgorithmState) =
      { sp_500_e_mini := some sampleSecurity } ∧
    (step { sp_500_e_mini := some sampleSecurity }
        CallbackEvent.scheduled).1 =
      { sp_500_e_mini := some sampleSecurity } :=
  ⟨C5_single_reference_no_mutation.1 _ _ rfl,
   C5_single_reference_no_mutation.2 { sp_500_e_mini := some sampleSecurity }
     CallbackEvent.scheduled⟩

/-- Claim C6: the handler raise is the only error path: initialize never
raises, the scheduled action never raises once the instrument reference is
set, and when on_order_event raises, the strategy state is returned
unchanged and no host call (hence no retry) is issued. -/
theorem C6_single_error_path (sec : Security) (st st2 : AlgorithmState)
    (is_market_open : Symbol → Bool) (e : OrderEvent)
    (h : st2.sp_500_e_mini = some sec) :
    (initialize_algorithm sec st).2.2 = none ∧
    (make_market_and_stop_market_order st2).2.2 = none ∧
    (on_order_event is_market_open st2 e).1 = st2 ∧
    (step st2 (CallbackEvent.order_update is_market_open e)).2.1 = [] := by
  refine ⟨rfl, ?_, ?_, rfl⟩
  · simp [make_market_and_stop_market_order, h]
  · simp only [on_order_event]
    split <;> rfl

/-- Witness for C6 at a concrete post-initialize state and event. -/
theorem C6_witness :
    (initialize_algorithm sampleSecurity initialState).2.2 = none ∧
    (make_market_and_stop_market_order
        { sp_500_e_mini := some sampleSecurity }).2.2 = none ∧
    (on_order_event (fun _ => true)
        { sp_500_e_mini := some sampleSecurity } sampleFilledEvent).1 =
      { sp_500_e_mini := some sampleSecurity } ∧
    (step { sp_500_e_mini := some sampleSecurity }
        (CallbackEvent.order_update (fun _ => true)
          sampleFilledEvent)).2.1 = [] :=
  C6_single_error_path sampleSecurity initialState
    { sp_500_e_mini := some sampleSecurity } (fun _ => true)
    sampleFilledEvent rfl

/-- Claim C7: every trailing stop submission of the scheduled action (and
there is exactly one) carries trailing amount 5 with the percentage flag
false, i.e. a fixed absolute offset. -/
theorem C7_trailing_stop_fixed_offset (st : AlgorithmState)
    (sec : Security) (h : st.sp_500_e_mini = some sec) :
    ((make_market_and_stop_market_order st).2.1.filterMap trailingParams) =
      [(5, false)] := by
  simp [make_market_and_stop_market_order, h, trailingParams]

/-- Witness for C7 at a concrete post-initialize state. -/
theorem C7_witness :
    ((make_market_and_stop_market_order
        { sp_500_e_mini := some sampleSecurity }).2.1.filterMap
      trailingParams) = [(5, false)] :=
  C7_trailing_stop_fixed_offset { sp_500_e_mini := some sampleSecurity }
    sampleSecurity rfl

/-- Claim C8: for every order event whose status is not FILLED, the
handler raises nothing, even when the market is open. -/
theorem C8_non_filled_never_raises (is_market_open : Symbol → Bool)
    (st : AlgorithmState) (e : OrderEvent)
    (h : e.status ≠ OrderStatus.FILLED) :
    (on_order_event is_market_open st e).2 = none := by
  simp [on_order_event, h]

/-- Witness for C8 at a concrete submitted event with open market. -/
theorem C8_witness :
    (on_order_event (fun _ => true) initialState sampleSubmittedEvent).2 =
      none :=
  C8_non_filled_never_raises (fun _ => true) initialState
    sampleSubmittedEvent (by decide)

/-- Claim C9: sp_500_e_mini starts as None, initialize assigns it the
added security, and no sequence of later callback invocations ever changes
it, so it stays non-None during the whole run. -/
theorem C9_reference_assigned_once (sec : Security)
    (evs : List CallbackEvent) :
    initialState.sp_500_e_mini = none ∧
    ((initialize_algorithm sec initialState).1).sp_500_e_mini = some sec ∧
    (run ((initialize_algorithm sec initialState).1) evs).sp_500_e_mini = some sec := by
  refine ⟨rfl, ?_, ?_⟩ <;> simp [run_eq, initialize_algorithm, initialState]

/-- Claim C10: the outcome of on_order_event depends on exactly the
market-open answer for the event symbol and the order status: two
invocations agreeing on these two inputs produce the same raise outcome,
whatever the other event fields and the strategy state. -/
theorem C10_handler_two_input_determinism (f1 f2 : Symbol → Bool)
    (st1 st2 : AlgorithmState) (e1 e2 : OrderEvent)
    (hopen : f1 e1.symbol = f2 e2.symbol)
    (hstatus : e1.status = e2.status) :
    (on_order_event f1 st1 e1).2 = (on_order_event f2 st2 e2).2 := by
  simp only [on_order_event, hopen, hstatus]
  split <;> rfl

/-- Witness for C10 at two concrete events differing in symbol, id, price,
quantity and time but agreeing on market-open answer and status. -/
theorem C10_witness :
    (on_order_event (fun _ => true) initialState sampleFilledEvent).2 =
      (on_order_event (fun _ => true)
        { sp_500_e_mini := some sampleSecurity } otherFilledEvent).2 :=
  C10_handler_two_input_determinism (fun _ => true) (fun _ => true)
    initialState { sp_500_e_mini := some sampleSecurity }
    sampleFilledEvent otherFilledEvent rfl rfl

end RegressionAlgorithm
